import Mathlib

/-!
Verification of the challenge-prosi blog service (Go Fiber + MongoDB).

Shallow embedding of the handler layer (app/internal/handlers/handlers.go),
the data model (app/internal/models) and the route table
(app/internal/routes).  The MongoDB collections are modelled as lists of
documents; each driver operation that can fail at the storage level is
given an explicit fault flag in a `Faults` record, so that a handler is a
pure function of the database state, the injected faults and the request.
-/

/-- A MongoDB ObjectID, rendered as its 24-character lowercase hex string.
`primitive.ObjectIDFromHex` decodes the hex bytes, so two hex strings that
differ only in letter case denote the same ObjectID; we normalise to
lowercase. -/
abbrev ObjectID := String

/-- Whether `c` is accepted by Go's `hex.DecodeString` (0-9, a-f, A-F). -/
def isHexDigit (c : Char) : Bool :=
  (decide ('0' ≤ c) && decide (c ≤ '9')) ||
  (decide ('a' ≤ c) && decide (c ≤ 'f')) ||
  (decide ('A' ≤ c) && decide (c ≤ 'F'))

/-- Lowercase a hex digit: the uppercase digits A-F are the only characters
whose case affects `hex.DecodeString`, and both cases decode to the same
byte. -/
def hexLowerChar (c : Char) : Char :=
  if c == 'A' then 'a' else if c == 'B' then 'b' else if c == 'C' then 'c'
  else if c == 'D' then 'd' else if c == 'E' then 'e' else if c == 'F' then 'f'
  else c

/-- Lowercase every hex digit of a string. -/
def hexLower (s : String) : String := ⟨s.data.map hexLowerChar⟩

/-- Embedding of `primitive.ObjectIDFromHex`: succeeds iff the string has
exactly 24 characters, all hex digits; the decoded value is the lowercase
form of the string. -/
def objectIDFromHex (s : String) : Option ObjectID :=
  if s.length = 24 && s.data.all isHexDigit then some (hexLower s) else none

/-- models.Comment: a comment document (collection `comments`). -/
structure Comment where
  id : ObjectID
  postId : ObjectID
  author : String
  content : String
  createdAt : Nat
  deriving DecidableEq

/-- models.BlogPost: a post document (collection `posts`); `comments` is the
transient field (bson:"-"), never persisted with the post document. -/
structure BlogPost where
  id : ObjectID
  title : String
  content : String
  createdAt : Nat
  comments : List Comment := []
  deriving DecidableEq

/-- models.BlogPostSummary: the list-view projection of a post. -/
structure BlogPostSummary where
  id : ObjectID
  title : String
  commentCount : Nat
  createdAt : Nat
  deriving DecidableEq

/-- A stored post document.  `malformed` marks a document whose BSON does not
decode into `models.BlogPost` (cursor.Decode fails); such a document still
has its `_id` and is still matched by id filters at the storage level. -/
structure PostDoc where
  post : BlogPost
  malformed : Bool := false
  deriving DecidableEq

/-- The two collections of storage.Storage. -/
structure DB where
  posts : List PostDoc
  comments : List Comment
  deriving DecidableEq

/-- The payload of a response envelope (the `data` field). -/
inductive RespData where
  | none
  | summaries (l : List BlogPostSummary)
  | post (p : BlogPost)
  | comment (c : Comment)
  | oid (id : ObjectID)
  deriving DecidableEq

/-- models.APIResponse: the uniform response envelope. -/
structure APIResponse where
  success : Bool
  data : RespData := .none
  error : String := ""
  deriving DecidableEq

/-- A handler outcome: HTTP status, response envelope, and the database
state after the handler ran. -/
structure HResult where
  status : Nat
  resp : APIResponse
  db : DB
  deriving DecidableEq

/-- The outcome of `Posts.Find` in GetPosts: success, or one of the error
values the handler distinguishes.  (`mongo.ErrEmptySlice` is matched by the
handler although `Find` never produces it; it is kept for faithfulness.) -/
inductive FindFault where
  | ok
  | emptySlice
  | queryError
  deriving DecidableEq

/-- Storage-level fault injection: one flag per driver call a handler makes.
A `false`/`.ok`/empty value means the call succeeds. -/
structure Faults where
  postsFind : FindFault := .ok
  commentCountFails : List ObjectID := []
  postInsertFails : Bool := false
  postFindOneFails : Bool := false
  commentsFindFails : Bool := false
  commentsAll : Option Nat := .none
  startSessionFails : Bool := false
  commentsDeleteManyFails : Bool := false
  postDeleteOneFails : Bool := false
  postCountFails : Bool := false
  commentInsertFails : Bool := false
  commentDeleteOneFails : Bool := false
  deriving DecidableEq

/-- No storage faults: every driver call succeeds. -/
def noFaults : Faults := {}

/-- `Comments.CountDocuments` with filter `{post_id: pid}` when it succeeds:
the number of comment documents referencing `pid`. -/
def countComments (cs : List Comment) (pid : ObjectID) : Nat :=
  (cs.filter (fun c => c.postId == pid)).length

/-- The summary list built by the cursor loop of GetPosts: malformed
documents are skipped (Decode fails, `continue`); for each decodable post a
comment count is queried, and when that count query fails the driver
returns count 0 together with the error, which the handler logs and keeps. -/
def getPostsSummaries (db : DB) (f : Faults) : List BlogPostSummary :=
  db.posts.filterMap (fun d =>
    if d.malformed then none
    else
      let count :=
        if f.commentCountFails.contains d.post.id then 0
        else countComments db.comments d.post.id
      some ⟨d.post.id, d.post.title, count, d.post.createdAt⟩)

/-- Handler.GetPosts (GET /api/posts). -/
def getPosts (db : DB) (f : Faults) : HResult :=
  match f.postsFind with
  | .emptySlice =>
      ⟨404, ⟨true, .summaries [], ""⟩, db⟩
  | .queryError =>
      ⟨502, ⟨false, .none, "Failed to fetch posts"⟩, db⟩
  | .ok =>
      ⟨200, ⟨true, .summaries (getPostsSummaries db f), ""⟩, db⟩

/-- models.CreatePostRequest: the POST /api/posts body. -/
structure CreatePostRequest where
  title : String
  content : String
  deriving DecidableEq

/-- models.CreateCommentRequest: the POST /api/posts/:id/comments body. -/
structure CreateCommentRequest where
  author : String
  content : String
  deriving DecidableEq

/-- Handler.CreatePost (POST /api/posts).  `body` is `none` when
`c.BodyParser` fails (malformed JSON); `now` is the server clock at the
insertion (`time.Now()`); `newId` is the ObjectID the store assigns to the
inserted document (`result.InsertedID`). -/
def createPost (db : DB) (f : Faults) (body : Option CreatePostRequest)
    (now : Nat) (newId : ObjectID) : HResult :=
  match body with
  | none => ⟨400, ⟨false, .none, "Invalid JSON"⟩, db⟩
  | some req =>
      if req.title == "" || req.content == "" then
        ⟨400, ⟨false, .none, "Title and content required"⟩, db⟩
      else
        if f.postInsertFails then
          ⟨502, ⟨false, .none, "Failed to create post"⟩, db⟩
        else
          let post : BlogPost := ⟨newId, req.title, req.content, now, []⟩
          ⟨200, ⟨true, .post post, ""⟩,
            { db with posts := db.posts ++ [⟨post, false⟩] }⟩

/-- `Posts.FindOne` with filter `{_id: id}`: the first stored post document
whose `_id` matches. -/
def findPostDoc (posts : List PostDoc) (id : ObjectID) : Option PostDoc :=
  posts.find? (fun d => d.post.id == id)

/-- Handler.GetPost (GET /api/posts/:id).  A matching but undecodable
document makes `Decode` fail with an error other than `ErrNoDocuments`,
which the handler maps to 500.  The secondary comment fetch is best-effort:
a `Find` error skips the attachment, and a `cursor.All` error (its return
value is discarded) leaves whatever prefix was decoded before the failure. -/
def getPost (db : DB) (f : Faults) (idStr : String) : HResult :=
  match objectIDFromHex idStr with
  | none => ⟨400, ⟨false, .none, "Invalid post ID"⟩, db⟩
  | some id =>
      if f.postFindOneFails then
        ⟨500, ⟨false, .none, "Failed to fetch post"⟩, db⟩
      else
        match findPostDoc db.posts id with
        | none => ⟨404, ⟨false, .none, "Post not found"⟩, db⟩
        | some d =>
            if d.malformed then
              ⟨500, ⟨false, .none, "Failed to fetch post"⟩, db⟩
            else
              let attached :=
                if f.commentsFindFails then []
                else
                  let full := db.comments.filter (fun c => c.postId == id)
                  match f.commentsAll with
                  | none => full
                  | some n => full.take n
              ⟨200, ⟨true, .post { d.post with comments := attached }, ""⟩, db⟩

/-- Handler.DeletePost (DELETE /api/posts/:id).  The handler wraps the two
deletes in `mongo.WithSession`, which only binds the session to the
context: no transaction is ever started (`session.StartTransaction` is
never called), so each delete executes immediately and durably, and
returning an error from the callback rolls nothing back.  In particular the
comment deletions of step 1 persist even when step 2 finds no post. -/
def deletePost (db : DB) (f : Faults) (idStr : String) : HResult :=
  match objectIDFromHex idStr with
  | none => ⟨400, ⟨false, .none, "Invalid post ID"⟩, db⟩
  | some postID =>
      if f.startSessionFails then
        ⟨502, ⟨false, .none, "Failed to delete post"⟩, db⟩
      else
        if f.commentsDeleteManyFails then
          ⟨502, ⟨false, .none, "Failed to delete comments from post"⟩, db⟩
        else
          let db1 : DB :=
            { db with comments := db.comments.filter (fun c => !(c.postId == postID)) }
          if f.postDeleteOneFails then
            ⟨502, ⟨false, .none, "Failed to delete post"⟩, db1⟩
          else
            if db1.posts.any (fun d => d.post.id == postID) then
              ⟨200, ⟨true, .oid postID, ""⟩,
                { db1 with posts := db1.posts.eraseP (fun d => d.post.id == postID) }⟩
            else
              ⟨400, ⟨false, .none, "Post not found"⟩, db1⟩

/-- `Posts.CountDocuments` with filter `{_id: postID}` when it succeeds:
malformed documents still match at the BSON level. -/
def countPosts (posts : List PostDoc) (postID : ObjectID) : Nat :=
  (posts.filter (fun d => d.post.id == postID)).length

/-- Handler.CreateComment (POST /api/posts/:id/comments).  A failed count
query returns count 0 with the error, and the handler maps `err != nil ||
count == 0` to 404. -/
def createComment (db : DB) (f : Faults) (idStr : String)
    (body : Option CreateCommentRequest) (now : Nat) (newId : ObjectID) : HResult :=
  match objectIDFromHex idStr with
  | none => ⟨400, ⟨false, .none, "Invalid post ID"⟩, db⟩
  | some postID =>
      match body with
      | none => ⟨400, ⟨false, .none, "Invalid JSON"⟩, db⟩
      | some req =>
          if req.author == "" || req.content == "" then
            ⟨400, ⟨false, .none, "Author and content required"⟩, db⟩
          else
            let count := if f.postCountFails then 0 else countPosts db.posts postID
            if f.postCountFails || count == 0 then
              ⟨404, ⟨false, .none, "Post not found"⟩, db⟩
            else
              if f.commentInsertFails then
                ⟨500, ⟨false, .none, "Failed to create comment"⟩, db⟩
              else
                let comment : Comment := ⟨newId, postID, req.author, req.content, now⟩
                ⟨200, ⟨true, .comment comment, ""⟩,
                  { db with comments := db.comments ++ [comment] }⟩

/-- Handler.DeleteComment (DELETE /api/comments/:id). -/
def deleteComment (db : DB) (f : Faults) (idStr : String) : HResult :=
  match objectIDFromHex idStr with
  | none => ⟨400, ⟨false, .none, "Invalid comment ID"⟩, db⟩
  | some commentID =>
      if f.commentDeleteOneFails then
        ⟨502, ⟨false, .none, "Failed to delete comment"⟩, db⟩
      else
        if db.comments.any (fun c => c.id == commentID) then
          ⟨200, ⟨true, .oid commentID, ""⟩,
            { db with comments := db.comments.eraseP (fun c => c.id == commentID) }⟩
        else
          ⟨400, ⟨false, .none, "No comment found to delete"⟩, db⟩

/-- An HTTP method used by the route table. -/
inductive HMethod where
  | get
  | post
  | delete
  deriving DecidableEq

/-- The handler a route is bound to. -/
inductive HandlerName where
  | getPosts
  | getPost
  | createPost
  | deletePost
  | createComment
  | deleteComment
  deriving DecidableEq

/-- One registered route: method, full path pattern, bound handler. -/
structure Route where
  method : HMethod
  path : String
  handler : HandlerName
  deriving DecidableEq

/-- registerRoutes: the route table, with the `/api` group prefix applied
to each registered path. -/
def registerRoutes : List Route :=
  [ ⟨.get, "/api/posts", .getPosts⟩,
    ⟨.get, "/api/posts/:id", .getPost⟩,
    ⟨.post, "/api/posts", .createPost⟩,
    ⟨.delete, "/api/posts/:id", .deletePost⟩,
    ⟨.post, "/api/posts/:id/comments", .createComment⟩,
    ⟨.delete, "/api/comments/:id", .deleteComment⟩ ]

/-- Router dispatch: the handler bound to a method + path pattern, if any. -/
def routeFor (m : HMethod) (p : String) : Option HandlerName :=
  (registerRoutes.find? (fun r => r.method == m && r.path == p)).map (fun r => r.handler)

/-- C1: the spec requires delete-post to run as a multi-document
transaction that aborts and rolls back when the post does not exist, so
that neither collection changes.  The code only wraps the two deletes in
`mongo.WithSession` without ever starting a transaction, so the comment
deletions of step 1 are durable: deleting a non-existent post id that
dangling comments reference reports not-found (400) but leaves the
comments collection permanently emptied of those comments. -/
theorem deletePost_no_rollback_on_not_found :
    deletePost
        ⟨[], [⟨"cccccccccccccccccccccccc", "aaaaaaaaaaaaaaaaaaaaaaaa", "alice", "hi", 5⟩]⟩
        noFaults "aaaaaaaaaaaaaaaaaaaaaaaa" =
      ⟨400, ⟨false, .none, "Post not found"⟩, ⟨[], []⟩⟩ ∧
    ([⟨"cccccccccccccccccccccccc", "aaaaaaaaaaaaaaaaaaaaaaaa", "alice", "hi", 5⟩] :
      List Comment) ≠ [] := by
  decide

/-- C2: the router binds DELETE /api/posts/:id to the delete-post handler
and DELETE /api/comments/:id to the delete-comment handler, and on every
input those handlers answer with one of the statuses 200, 400 or 502. -/
theorem delete_routes_bound :
    routeFor .delete "/api/posts/:id" = some .deletePost ∧
    routeFor .delete "/api/comments/:id" = some .deleteComment ∧
    (∀ db f idStr, (deletePost db f idStr).status = 200 ∨
      (deletePost db f idStr).status = 400 ∨ (deletePost db f idStr).status = 502) ∧
    (∀ db f idStr, (deleteComment db f idStr).status = 200 ∨
      (deleteComment db f idStr).status = 400 ∨ (deleteComment db f idStr).status = 502) := by
  refine ⟨by decide, by decide, ?_, ?_⟩
  · intro db f idStr
    unfold deletePost
    cases h : objectIDFromHex idStr <;> simp [h]
    split_ifs <;> simp
  · intro db f idStr
    unfold deleteComment
    cases h : objectIDFromHex idStr <;> simp [h]
    split_ifs <;> simp

/-- C4: a query-level failure on the primary posts fetch yields a 502
gateway error with success false, while an empty posts collection under a
fault-free run yields a 200 success carrying an empty summary list. -/
theorem getPosts_fetch_failure_vs_empty (db : DB) (f : Faults) :
    (f.postsFind = .queryError →
      getPosts db f = ⟨502, ⟨false, .none, "Failed to fetch posts"⟩, db⟩) ∧
    (db.posts = [] →
      getPosts db noFaults = ⟨200, ⟨true, .summaries [], ""⟩, db⟩) := by
  constructor
  · intro h
    simp [getPosts, h]
  · intro h
    simp [getPosts, noFaults, getPostsSummaries, h]

/-- Witness for C4 at a concrete empty database and a concrete failing
fetch. -/
theorem getPosts_fetch_failure_vs_empty_witness :
    getPosts ⟨[], []⟩ { noFaults with postsFind := .queryError } =
      ⟨502, ⟨false, .none, "Failed to fetch posts"⟩, ⟨[], []⟩⟩ ∧
    getPosts ⟨[], []⟩ noFaults = ⟨200, ⟨true, .summaries [], ""⟩, ⟨[], []⟩⟩ := by
  exact ⟨(getPosts_fetch_failure_vs_empty ⟨[], []⟩ { noFaults with postsFind := .queryError }).1 rfl,
    (getPosts_fetch_failure_vs_empty ⟨[], []⟩ noFaults).2 rfl⟩

/-- C5: a create-post request whose title or content is empty is rejected
with 400 naming the fields, the database is unchanged, and this holds for
every fault assignment, so no storage write is attempted. -/
theorem createPost_empty_fields_rejected (db : DB) (f : Faults)
    (req : CreatePostRequest) (now : Nat) (newId : ObjectID)
    (h : req.title = "" ∨ req.content = "") :
    createPost db f (some req) now newId =
      ⟨400, ⟨false, .none, "Title and content required"⟩, db⟩ := by
  unfold createPost
  rcases h with h | h <;> simp [h]

/-- Witness for C5: empty title at a concrete database and request. -/
theorem createPost_empty_fields_rejected_witness :
    createPost ⟨[], []⟩ noFaults (some ⟨"", "body"⟩) 3 "bbbbbbbbbbbbbbbbbbbbbbbb" =
      ⟨400, ⟨false, .none, "Title and content required"⟩, ⟨[], []⟩⟩ := by
  exact createPost_empty_fields_rejected ⟨[], []⟩ noFaults ⟨"", "body"⟩ 3
    "bbbbbbbbbbbbbbbbbbbbbbbb" (Or.inl rfl)

/-- C6: a successful create-post responds 200 with the full post: the
client title and content unchanged, the store-assigned id, the timestamp
stamped server-side at insertion, and an empty comments list; the same
document is appended to the posts collection. -/
theorem createPost_success_response (db : DB) (req : CreatePostRequest)
    (now : Nat) (newId : ObjectID)
    (h1 : req.title ≠ "") (h2 : req.content ≠ "") :
    createPost db noFaults (some req) now newId =
      ⟨200, ⟨true, .post ⟨newId, req.title, req.content, now, []⟩, ""⟩,
        ⟨db.posts ++ [⟨⟨newId, req.title, req.content, now, []⟩, false⟩], db.comments⟩⟩ := by
  have e1 : (req.title == "") = false := beq_eq_false_iff_ne.mpr h1
  have e2 : (req.content == "") = false := beq_eq_false_iff_ne.mpr h2
  simp [createPost, e1, e2, noFaults]

/-- Witness for C6 at a concrete request. -/
theorem createPost_success_response_witness :
    createPost ⟨[], []⟩ noFaults (some ⟨"t", "c"⟩) 9 "bbbbbbbbbbbbbbbbbbbbbbbb" =
      ⟨200, ⟨true, .post ⟨"bbbbbbbbbbbbbbbbbbbbbbbb", "t", "c", 9, []⟩, ""⟩,
        ⟨[⟨⟨"bbbbbbbbbbbbbbbbbbbbbbbb", "t", "c", 9, []⟩, false⟩], []⟩⟩ := by
  exact createPost_success_response ⟨[], []⟩ ⟨"t", "c"⟩ 9 "bbbbbbbbbbbbbbbbbbbbbbbb"
    (by decide) (by decide)

/-- C3: create-comment validates in order — post id first (400 Invalid post
ID, even when the body is also bad), then the body (400 Invalid JSON, 400
empty author/content), then the post-existence count query (404 exactly
when the count is zero), and only then inserts the comment with the
server-stamped timestamp; in every failure case the database is
unchanged. -/
theorem createComment_validation_order (db : DB) (idStr : String)
    (body : Option CreateCommentRequest) (now : Nat) (newId : ObjectID) :
    (objectIDFromHex idStr = none →
      createComment db noFaults idStr body now newId =
        ⟨400, ⟨false, .none, "Invalid post ID"⟩, db⟩) ∧
    (∀ pid, objectIDFromHex idStr = some pid → body = none →
      createComment db noFaults idStr body now newId =
        ⟨400, ⟨false, .none, "Invalid JSON"⟩, db⟩) ∧
    (∀ pid req, objectIDFromHex idStr = some pid → body = some req →
      (req.author = "" ∨ req.content = "") →
      createComment db noFaults idStr body now newId =
        ⟨400, ⟨false, .none, "Author and content required"⟩, db⟩) ∧
    (∀ pid req, objectIDFromHex idStr = some pid → body = some req →
      req.author ≠ "" → req.content ≠ "" → countPosts db.posts pid = 0 →
      createComment db noFaults idStr body now newId =
        ⟨404, ⟨false, .none, "Post not found"⟩, db⟩) ∧
    (∀ pid req, objectIDFromHex idStr = some pid → body = some req →
      req.author ≠ "" → req.content ≠ "" → countPosts db.posts pid ≠ 0 →
      createComment db noFaults idStr body now newId =
        ⟨200, ⟨true, .comment ⟨newId, pid, req.author, req.content, now⟩, ""⟩,
          ⟨db.posts, db.comments ++ [⟨newId, pid, req.author, req.content, now⟩]⟩⟩) := by
  refine ⟨?_, ?_, ?_, ?_, ?_⟩
  · intro h
    simp [createComment, h]
  · intro pid h hb
    simp [createComment, h, hb]
  · intro pid req h hb hempty
    rcases hempty with he | he <;> simp [createComment, h, hb, he]
  · intro pid req h hb ha hc hcount
    have ea : (req.author == "") = false := beq_eq_false_iff_ne.mpr ha
    have ec : (req.content == "") = false := beq_eq_false_iff_ne.mpr hc
    simp [createComment, h, hb, ea, ec, noFaults, hcount]
  · intro pid req h hb ha hc hcount
    have ea : (req.author == "") = false := beq_eq_false_iff_ne.mpr ha
    have ec : (req.content == "") = false := beq_eq_false_iff_ne.mpr hc
    have ecnt : (countPosts db.posts pid == 0) = false := beq_eq_false_iff_ne.mpr hcount
    simp [createComment, h, hb, ea, ec, noFaults, ecnt]

/-- Witness for C3: the insertion branch at a concrete database holding the
referenced post, with a valid id and body. -/
theorem createComment_validation_order_witness :
    createComment ⟨[⟨⟨"aaaaaaaaaaaaaaaaaaaaaaaa", "t", "c", 1, []⟩, false⟩], []⟩ noFaults
        "aaaaaaaaaaaaaaaaaaaaaaaa" (some ⟨"bob", "hey"⟩) 7 "cccccccccccccccccccccccc" =
      ⟨200, ⟨true, .comment ⟨"cccccccccccccccccccccccc", "aaaaaaaaaaaaaaaaaaaaaaaa",
          "bob", "hey", 7⟩, ""⟩,
        ⟨[⟨⟨"aaaaaaaaaaaaaaaaaaaaaaaa", "t", "c", 1, []⟩, false⟩],
          [⟨"cccccccccccccccccccccccc", "aaaaaaaaaaaaaaaaaaaaaaaa", "bob", "hey", 7⟩]⟩⟩ := by
  have h := createComment_validation_order
    ⟨[⟨⟨"aaaaaaaaaaaaaaaaaaaaaaaa", "t", "c", 1, []⟩, false⟩], []⟩
    "aaaaaaaaaaaaaaaaaaaaaaaa" (some ⟨"bob", "hey"⟩) 7 "cccccccccccccccccccccccc"
  exact h.2.2.2.2 "aaaaaaaaaaaaaaaaaaaaaaaa" ⟨"bob", "hey"⟩ (by decide) rfl
    (by decide) (by decide) (by decide)

/-- C7: when the post exists and the primary fetch succeeds, get-post
returns 200 success carrying the post for every fault assignment of the
secondary comment fetch; the attached comment list is always a prefix
(`take n`) of the full comment list of that post — empty when the fetch
fails, partial when `cursor.All` fails midway. -/
theorem getPost_comment_fetch_tolerated (db : DB) (f : Faults) (idStr : String)
    (id : ObjectID) (d : PostDoc)
    (h1 : objectIDFromHex idStr = some id)
    (h2 : f.postFindOneFails = false)
    (h3 : findPostDoc db.posts id = some d)
    (h4 : d.malformed = false) :
    (getPost db f idStr).status = 200 ∧
    (getPost db f idStr).resp.success = true ∧
    ∃ n, (getPost db f idStr).resp.data =
      .post { d.post with
        comments := (db.comments.filter (fun c => c.postId == id)).take n } := by
  refine ⟨?_, ?_, ?_⟩ <;> simp only [getPost, h1, h2, h3, h4] <;> simp
  by_cases hf : f.commentsFindFails
  · exact ⟨0, by simp [hf]⟩
  · cases hall : f.commentsAll with
    | none =>
        exact ⟨(db.comments.filter (fun c => c.postId == id)).length,
          by simp [hf, hall, List.take_length]⟩
    | some n => exact ⟨n, by simp [hf, hall]⟩

/-- Witness for C7: a database with one post and one comment, with the
secondary comment fetch failing; the post is still returned with an empty
comment list. -/
theorem getPost_comment_fetch_tolerated_witness :
    (getPost ⟨[⟨⟨"aaaaaaaaaaaaaaaaaaaaaaaa", "t", "c", 1, []⟩, false⟩],
        [⟨"cccccccccccccccccccccccc", "aaaaaaaaaaaaaaaaaaaaaaaa", "al", "hi", 2⟩]⟩
      { noFaults with commentsFindFails := true } "aaaaaaaaaaaaaaaaaaaaaaaa").status = 200 ∧
    (getPost ⟨[⟨⟨"aaaaaaaaaaaaaaaaaaaaaaaa", "t", "c", 1, []⟩, false⟩],
        [⟨"cccccccccccccccccccccccc", "aaaaaaaaaaaaaaaaaaaaaaaa", "al", "hi", 2⟩]⟩
      { noFaults with commentsFindFails := true } "aaaaaaaaaaaaaaaaaaaaaaaa").resp.success = true ∧
    ∃ n, (getPost ⟨[⟨⟨"aaaaaaaaaaaaaaaaaaaaaaaa", "t", "c", 1, []⟩, false⟩],
        [⟨"cccccccccccccccccccccccc", "aaaaaaaaaaaaaaaaaaaaaaaa", "al", "hi", 2⟩]⟩
      { noFaults with commentsFindFails := true } "aaaaaaaaaaaaaaaaaaaaaaaa").resp.data =
      .post { (⟨"aaaaaaaaaaaaaaaaaaaaaaaa", "t", "c", 1, []⟩ : BlogPost) with
        comments :=
          (([⟨"cccccccccccccccccccccccc", "aaaaaaaaaaaaaaaaaaaaaaaa", "al", "hi", 2⟩] :
            List Comment).filter (fun c => c.postId == "aaaaaaaaaaaaaaaaaaaaaaaa")).take n } := by
  exact getPost_comment_fetch_tolerated
    ⟨[⟨⟨"aaaaaaaaaaaaaaaaaaaaaaaa", "t", "c", 1, []⟩, false⟩],
      [⟨"cccccccccccccccccccccccc", "aaaaaaaaaaaaaaaaaaaaaaaa", "al", "hi", 2⟩]⟩
    { noFaults with commentsFindFails := true } "aaaaaaaaaaaaaaaaaaaaaaaa"
    "aaaaaaaaaaaaaaaaaaaaaaaa" ⟨⟨"aaaaaaaaaaaaaaaaaaaaaaaa", "t", "c", 1, []⟩, false⟩
    (by decide) rfl (by decide) rfl

/-- C8: in a fault-free list-posts response, every returned summary's
comment count equals the exact number of comment documents whose post_id
matches that summary's post identifier. -/
theorem getPosts_comment_count_exact (db : DB) (s : BlogPostSummary)
    (h : s ∈ getPostsSummaries db noFaults) :
    s.commentCount = countComments db.comments s.id ∧
    (getPosts db noFaults).status = 200 ∧
    (getPosts db noFaults).resp.data = .summaries (getPostsSummaries db noFaults) := by
  refine ⟨?_, rfl, rfl⟩
  unfold getPostsSummaries at h
  rw [List.mem_filterMap] at h
  obtain ⟨d, hd, hsome⟩ := h
  by_cases hm : d.malformed
  · simp [hm] at hsome
  · simp only [hm, if_false, noFaults] at hsome
    simp only [List.contains, List.elem_nil, if_neg Bool.false_ne_true] at hsome
    cases hsome
    rfl

/-- Witness for C8: one post with two matching comments and one unrelated
comment; its summary reports count 2. -/
theorem getPosts_comment_count_exact_witness :
    (⟨"aaaaaaaaaaaaaaaaaaaaaaaa", "t", 2, 1⟩ : BlogPostSummary).commentCount =
      countComments
        [⟨"c1c1c1c1c1c1c1c1c1c1c1c1", "aaaaaaaaaaaaaaaaaaaaaaaa", "x", "1", 2⟩,
          ⟨"c2c2c2c2c2c2c2c2c2c2c2c2", "aaaaaaaaaaaaaaaaaaaaaaaa", "y", "2", 3⟩,
          ⟨"c3c3c3c3c3c3c3c3c3c3c3c3", "dddddddddddddddddddddddd", "z", "3", 4⟩]
        "aaaaaaaaaaaaaaaaaaaaaaaa" ∧
    (getPosts ⟨[⟨⟨"aaaaaaaaaaaaaaaaaaaaaaaa", "t", "c", 1, []⟩, false⟩],
        [⟨"c1c1c1c1c1c1c1c1c1c1c1c1", "aaaaaaaaaaaaaaaaaaaaaaaa", "x", "1", 2⟩,
          ⟨"c2c2c2c2c2c2c2c2c2c2c2c2", "aaaaaaaaaaaaaaaaaaaaaaaa", "y", "2", 3⟩,
          ⟨"c3c3c3c3c3c3c3c3c3c3c3c3", "dddddddddddddddddddddddd", "z", "3", 4⟩]⟩
      noFaults).status = 200 ∧
    (getPosts ⟨[⟨⟨"aaaaaaaaaaaaaaaaaaaaaaaa", "t", "c", 1, []⟩, false⟩],
        [⟨"c1c1c1c1c1c1c1c1c1c1c1c1", "aaaaaaaaaaaaaaaaaaaaaaaa", "x", "1", 2⟩,
          ⟨"c2c2c2c2c2c2c2c2c2c2c2c2", "aaaaaaaaaaaaaaaaaaaaaaaa", "y", "2", 3⟩,
          ⟨"c3c3c3c3c3c3c3c3c3c3c3c3", "dddddddddddddddddddddddd", "z", "3", 4⟩]⟩
      noFaults).resp.data = .summaries (getPostsSummaries
        ⟨[⟨⟨"aaaaaaaaaaaaaaaaaaaaaaaa", "t", "c", 1, []⟩, false⟩],
          [⟨"c1c1c1c1c1c1c1c1c1c1c1c1", "aaaaaaaaaaaaaaaaaaaaaaaa", "x", "1", 2⟩,
            ⟨"c2c2c2c2c2c2c2c2c2c2c2c2", "aaaaaaaaaaaaaaaaaaaaaaaa", "y", "2", 3⟩,
            ⟨"c3c3c3c3c3c3c3c3c3c3c3c3", "dddddddddddddddddddddddd", "z", "3", 4⟩]⟩
        noFaults) := by
  exact getPosts_comment_count_exact
    ⟨[⟨⟨"aaaaaaaaaaaaaaaaaaaaaaaa", "t", "c", 1, []⟩, false⟩],
      [⟨"c1c1c1c1c1c1c1c1c1c1c1c1", "aaaaaaaaaaaaaaaaaaaaaaaa", "x", "1", 2⟩,
        ⟨"c2c2c2c2c2c2c2c2c2c2c2c2", "aaaaaaaaaaaaaaaaaaaaaaaa", "y", "2", 3⟩,
        ⟨"c3c3c3c3c3c3c3c3c3c3c3c3", "dddddddddddddddddddddddd", "z", "3", 4⟩]⟩
    ⟨"aaaaaaaaaaaaaaaaaaaaaaaa", "t", 2, 1⟩ (by decide)

/-- C9: a malformed identifier (wrong length or a non-hex character) makes
every :id handler answer 400 with the fixed message and leave the database
untouched, for every database, fault assignment and request body — so no
storage call can influence the outcome. -/
theorem malformed_id_returns_400_no_storage (idStr : String)
    (h : idStr.length ≠ 24 ∨ idStr.data.all isHexDigit = false) :
    ∀ (db : DB) (f : Faults) (body : Option CreateCommentRequest) (now : Nat)
      (newId : ObjectID),
      getPost db f idStr = ⟨400, ⟨false, .none, "Invalid post ID"⟩, db⟩ ∧
      deletePost db f idStr = ⟨400, ⟨false, .none, "Invalid post ID"⟩, db⟩ ∧
      createComment db f idStr body now newId =
        ⟨400, ⟨false, .none, "Invalid post ID"⟩, db⟩ ∧
      deleteComment db f idStr = ⟨400, ⟨false, .none, "Invalid comment ID"⟩, db⟩ := by
  have hnone : objectIDFromHex idStr = none := by
    unfold objectIDFromHex
    rcases h with h | h <;> simp [h]
  intro db f body now newId
  refine ⟨?_, ?_, ?_, ?_⟩ <;> simp [getPost, deletePost, createComment, deleteComment, hnone]

/-- Witness for C9: the three-character identifier "xyz". -/
theorem malformed_id_returns_400_no_storage_witness :
    getPost ⟨[], []⟩ noFaults "xyz" = ⟨400, ⟨false, .none, "Invalid post ID"⟩, ⟨[], []⟩⟩ ∧
    deletePost ⟨[], []⟩ noFaults "xyz" = ⟨400, ⟨false, .none, "Invalid post ID"⟩, ⟨[], []⟩⟩ ∧
    createComment ⟨[], []⟩ noFaults "xyz" (some ⟨"a", "b"⟩) 0 "cccccccccccccccccccccccc" =
      ⟨400, ⟨false, .none, "Invalid post ID"⟩, ⟨[], []⟩⟩ ∧
    deleteComment ⟨[], []⟩ noFaults "xyz" =
      ⟨400, ⟨false, .none, "Invalid comment ID"⟩, ⟨[], []⟩⟩ := by
  exact malformed_id_returns_400_no_storage "xyz" (by decide) ⟨[], []⟩ noFaults
    (some ⟨"a", "b"⟩) 0 "cccccccccccccccccccccccc"

/-- The summary list has one entry per decodable post document: no failing
count query removes a post from the list. -/
theorem getPostsSummaries_length (db : DB) (f : Faults) :
    (getPostsSummaries db f).length = (db.posts.filter (fun d => !d.malformed)).length := by
  unfold getPostsSummaries
  induction db.posts with
  | nil => rfl
  | cons d rest ih =>
      by_cases hm : d.malformed <;>
        · rw [List.filterMap_cons, List.filter_cons]
          simp [hm]
          simpa using ih

/-- C10: when the comment-count query fails for a post, list-posts still
answers 200 success, that post appears in the summaries carrying count 0
(the value the failed query returned), and the list keeps one entry per
decodable post, so processing continued over the rest. -/
theorem getPosts_count_failure_tolerated (db : DB) (f : Faults) (d : PostDoc)
    (h1 : d ∈ db.posts) (h2 : d.malformed = false) (h3 : f.postsFind = .ok)
    (h4 : f.commentCountFails.contains d.post.id = true) :
    (getPosts db f).status = 200 ∧
    (getPosts db f).resp.success = true ∧
    (getPosts db f).resp.data = .summaries (getPostsSummaries db f) ∧
    (⟨d.post.id, d.post.title, 0, d.post.createdAt⟩ : BlogPostSummary) ∈
      getPostsSummaries db f ∧
    (getPostsSummaries db f).length = (db.posts.filter (fun x => !x.malformed)).length := by
  have h4m : d.post.id ∈ f.commentCountFails := by simpa using h4
  refine ⟨by simp [getPosts, h3], by simp [getPosts, h3], by simp [getPosts, h3], ?_,
    getPostsSummaries_length db f⟩
  unfold getPostsSummaries
  exact List.mem_filterMap.mpr ⟨d, h1, by simp [h2, h4m]⟩

/-- Witness for C10: two posts, the count query failing for the first; both
appear, the first with count 0. -/
theorem getPosts_count_failure_tolerated_witness :
    (getPosts ⟨[⟨⟨"aaaaaaaaaaaaaaaaaaaaaaaa", "t", "c", 1, []⟩, false⟩,
        ⟨⟨"dddddddddddddddddddddddd", "u", "v", 2, []⟩, false⟩],
        [⟨"c1c1c1c1c1c1c1c1c1c1c1c1", "aaaaaaaaaaaaaaaaaaaaaaaa", "x", "1", 2⟩]⟩
      { noFaults with commentCountFails := ["aaaaaaaaaaaaaaaaaaaaaaaa"] }).status = 200 ∧
    (getPosts ⟨[⟨⟨"aaaaaaaaaaaaaaaaaaaaaaaa", "t", "c", 1, []⟩, false⟩,
        ⟨⟨"dddddddddddddddddddddddd", "u", "v", 2, []⟩, false⟩],
        [⟨"c1c1c1c1c1c1c1c1c1c1c1c1", "aaaaaaaaaaaaaaaaaaaaaaaa", "x", "1", 2⟩]⟩
      { noFaults with commentCountFails := ["aaaaaaaaaaaaaaaaaaaaaaaa"] }).resp.success = true ∧
    (getPosts ⟨[⟨⟨"aaaaaaaaaaaaaaaaaaaaaaaa", "t", "c", 1, []⟩, false⟩,
        ⟨⟨"dddddddddddddddddddddddd", "u", "v", 2, []⟩, false⟩],
        [⟨"c1c1c1c1c1c1c1c1c1c1c1c1", "aaaaaaaaaaaaaaaaaaaaaaaa", "x", "1", 2⟩]⟩
      { noFaults with commentCountFails := ["aaaaaaaaaaaaaaaaaaaaaaaa"] }).resp.data =
      .summaries (getPostsSummaries
        ⟨[⟨⟨"aaaaaaaaaaaaaaaaaaaaaaaa", "t", "c", 1, []⟩, false⟩,
          ⟨⟨"dddddddddddddddddddddddd", "u", "v", 2, []⟩, false⟩],
          [⟨"c1c1c1c1c1c1c1c1c1c1c1c1", "aaaaaaaaaaaaaaaaaaaaaaaa", "x", "1", 2⟩]⟩
        { noFaults with commentCountFails := ["aaaaaaaaaaaaaaaaaaaaaaaa"] }) ∧
    (⟨"aaaaaaaaaaaaaaaaaaaaaaaa", "t", 0, 1⟩ : BlogPostSummary) ∈
      getPostsSummaries
        ⟨[⟨⟨"aaaaaaaaaaaaaaaaaaaaaaaa", "t", "c", 1, []⟩, false⟩,
          ⟨⟨"dddddddddddddddddddddddd", "u", "v", 2, []⟩, false⟩],
          [⟨"c1c1c1c1c1c1c1c1c1c1c1c1", "aaaaaaaaaaaaaaaaaaaaaaaa", "x", "1", 2⟩]⟩
        { noFaults with commentCountFails := ["aaaaaaaaaaaaaaaaaaaaaaaa"] } ∧
    (getPostsSummaries
        ⟨[⟨⟨"aaaaaaaaaaaaaaaaaaaaaaaa", "t", "c", 1, []⟩, false⟩,
          ⟨⟨"dddddddddddddddddddddddd", "u", "v", 2, []⟩, false⟩],
          [⟨"c1c1c1c1c1c1c1c1c1c1c1c1", "aaaaaaaaaaaaaaaaaaaaaaaa", "x", "1", 2⟩]⟩
        { noFaults with commentCountFails := ["aaaaaaaaaaaaaaaaaaaaaaaa"] }).length =
      (([⟨⟨"aaaaaaaaaaaaaaaaaaaaaaaa", "t", "c", 1, []⟩, false⟩,
          ⟨⟨"dddddddddddddddddddddddd", "u", "v", 2, []⟩, false⟩] :
        List PostDoc).filter (fun x => !x.malformed)).length := by
  exact getPosts_count_failure_tolerated
    ⟨[⟨⟨"aaaaaaaaaaaaaaaaaaaaaaaa", "t", "c", 1, []⟩, false⟩,
      ⟨⟨"dddddddddddddddddddddddd", "u", "v", 2, []⟩, false⟩],
      [⟨"c1c1c1c1c1c1c1c1c1c1c1c1", "aaaaaaaaaaaaaaaaaaaaaaaa", "x", "1", 2⟩]⟩
    { noFaults with commentCountFails := ["aaaaaaaaaaaaaaaaaaaaaaaa"] }
    ⟨⟨"aaaaaaaaaaaaaaaaaaaaaaaa", "t", "c", 1, []⟩, false⟩
    (by decide) rfl rfl (by decide)
